import Mathlib

/-!
Verification of the esp32cam capture-pipeline firmware (modules
`camera.cpp`, `flash.cpp`, `config.cpp`, `webserver.cpp`) by shallow
embedding into Lean.  Machine integers are modelled as `Nat`/`Int`;
byte stores as functions `Nat → Nat` whose cells hold values `< 256`;
the external collaborators (sensor driver, LED PWM peripheral, EEPROM
commit, ArduinoJson) are modelled as always-succeeding state updates or
as explicit oracles, exactly as the spec declares them out of scope.
-/

namespace Esp32Cam

/-- Arduino `constrain(x, lo, hi)` on `Int`. -/
def constrainI (x lo hi : Int) : Int :=
  if x < lo then lo else if x > hi then hi else x

/-- Arduino `constrain(x, lo, hi)` on `Nat`. -/
def constrainN (x lo hi : Nat) : Nat :=
  if x < lo then lo else if x > hi then hi else x

/-! ### framesize_t (esp_camera.h enum values) -/

def FRAMESIZE_96X96 : Nat := 0
def FRAMESIZE_QQVGA : Nat := 1
def FRAMESIZE_QCIF : Nat := 2
def FRAMESIZE_HQVGA : Nat := 3
def FRAMESIZE_240X240 : Nat := 4
def FRAMESIZE_QVGA : Nat := 5
def FRAMESIZE_CIF : Nat := 6
def FRAMESIZE_HVGA : Nat := 7
def FRAMESIZE_VGA : Nat := 8
def FRAMESIZE_SVGA : Nat := 9
def FRAMESIZE_XGA : Nat := 10
def FRAMESIZE_HD : Nat := 11
def FRAMESIZE_SXGA : Nat := 12
def FRAMESIZE_UXGA : Nat := 13

/-! ### Camera module (camera.h / camera.cpp) -/

/-- `struct CameraSettings` from camera.h. -/
structure CameraSettings where
  resolution : Nat
  brightness : Int
  contrast : Int
  saturation : Int
  exposure : Nat
  gain : Nat
  special_effect : Nat
  wb_mode : Nat
  hmirror : Bool
  vflip : Bool
  deriving Repr, DecidableEq

/-- The sensor registers touched by `CameraManager::applySettings`
(`sensor_t` setters, modelled as record fields). -/
structure SensorState where
  framesize : Nat
  brightness : Int
  contrast : Int
  saturation : Int
  special_effect : Nat
  whitebal : Bool
  awb_gain : Bool
  wb_mode : Nat
  gain_ctrl : Bool
  agc_gain : Nat
  hmirror : Bool
  vflip : Bool
  exposure_ctrl : Bool
  aec_value : Nat
  aec2 : Bool
  deriving Repr, DecidableEq

/-- The `CameraManager` private state (camera.h). -/
structure CamState where
  camera_ready : Bool
  current_resolution : Nat
  capture_count : Nat
  failed_capture_count : Nat
  last_capture_time : Nat
  sensor : SensorState
  deriving Repr, DecidableEq

/-- `CameraManager::validateSettings` (camera.cpp). -/
def validateSettings (s : CameraSettings) : Bool :=
  if s.brightness < -2 || s.brightness > 2 then false
  else if s.contrast < -2 || s.contrast > 2 then false
  else if s.saturation < -2 || s.saturation > 2 then false
  else if s.exposure > 1200 then false
  else if s.gain > 30 then false
  else if s.special_effect > 6 then false
  else if s.wb_mode > 4 then false
  else if s.resolution < FRAMESIZE_96X96 || s.resolution > FRAMESIZE_UXGA then false
  else true

/-- `CameraManager::setResolution` (camera.cpp).  The driver call
`s->set_framesize` is external and modelled as succeeding. -/
def setResolution (resolution : Nat) (st : CamState) : Bool × CamState :=
  if !st.camera_ready then (false, st)
  else (true, { st with
    current_resolution := resolution
    sensor := { st.sensor with framesize := resolution } })

/-- `CameraManager::applySettings` (camera.cpp lines 307-372): validate,
then resolution → brightness/contrast/saturation/effect → white balance
→ gain → orientation → exposure, each a sensor register update. -/
def applySettings (settings : CameraSettings) (st : CamState) : Bool × CamState :=
  if !st.camera_ready || !validateSettings settings then (false, st)
  else
    let step1 :=
      if settings.resolution ≠ st.current_resolution then
        setResolution settings.resolution st
      else (true, st)
    if !step1.1 then (false, step1.2)
    else
      let st1 := step1.2
      let sen := st1.sensor
      let sen := { sen with
        brightness := constrainI settings.brightness (-2) 2
        contrast := constrainI settings.contrast (-2) 2
        saturation := constrainI settings.saturation (-2) 2
        special_effect := constrainN settings.special_effect 0 6 }
      let sen :=
        if settings.wb_mode = 0 then
          { sen with whitebal := true, awb_gain := true, wb_mode := 0 }
        else
          { sen with whitebal := false, wb_mode := constrainN settings.wb_mode 0 4 }
      let sen :=
        if settings.gain > 0 then
          { sen with gain_ctrl := false, agc_gain := constrainN settings.gain 0 30 }
        else
          { sen with gain_ctrl := true }
      let sen := { sen with hmirror := settings.hmirror, vflip := settings.vflip }
      let sen :=
        if settings.resolution ≤ FRAMESIZE_VGA ∧ settings.exposure > 0 then
          { sen with exposure_ctrl := false
                     aec_value := constrainN settings.exposure 0 1200
                     aec2 := false }
        else
          { sen with exposure_ctrl := true, aec2 := true }
      (true, { st1 with sensor := sen })

/-! ### Capture events

Observable hardware interactions of one request: LED PWM writes
(`ledcWrite` via `setFlashDuty`), frame-buffer requests and returns
(`esp_camera_fb_get` / `esp_camera_fb_return`), and `delay` calls. -/

inductive Ev where
  | setDuty (d : Nat)
  | delayMs (n : Nat)
  | frameGet
  | frameReturn
  deriving Repr, DecidableEq

def Ev.isSetDuty : Ev → Bool
  | .setDuty _ => true
  | _ => false

def Ev.isFrameGet : Ev → Bool
  | .frameGet => true
  | _ => false

/-- The external sensor driver is an oracle: the list of outcomes of the
successive `esp_camera_fb_get` calls (`true` = a frame is delivered).
An exhausted oracle means no frame is delivered. -/
abbrev FrameOracle := List Bool

/-- One `esp_camera_fb_get`: consume the next oracle entry. -/
def fbGet (fr : FrameOracle) : Bool × FrameOracle :=
  match fr with
  | [] => (false, [])
  | b :: rest => (b, rest)

/-- `CameraManager::captureFrame` (camera.cpp lines 202-221). -/
def captureFrame (st : CamState) (fr : FrameOracle) (now : Nat) :
    Bool × CamState × FrameOracle × List Ev :=
  if !st.camera_ready then (false, st, fr, [])
  else
    let (got, fr1) := fbGet fr
    if got then
      (true, { st with capture_count := st.capture_count + 1,
                       last_capture_time := now }, fr1, [Ev.frameGet])
    else
      (false, { st with failed_capture_count := st.failed_capture_count + 1 },
       fr1, [Ev.frameGet])

/-- The loop body of `CameraManager::warmupCamera`: request a frame,
return it and wait 100 ms, or stop at the first failure. -/
def warmupLoop : Nat → FrameOracle → Bool × FrameOracle × List Ev
  | 0, fr => (true, fr, [])
  | n + 1, fr =>
    let (got, fr1) := fbGet fr
    if got then
      let (ok, fr2, tr) := warmupLoop n fr1
      (ok, fr2, Ev.frameGet :: Ev.frameReturn :: Ev.delayMs 100 :: tr)
    else (false, fr1, [Ev.frameGet])

/-- `CameraManager::warmupCamera` (camera.cpp lines 484-503). -/
def warmupCamera (frames : Nat) (st : CamState) (fr : FrameOracle) :
    Bool × FrameOracle × List Ev :=
  if !st.camera_ready then (false, fr, [])
  else warmupLoop frames fr

/-! ### Flash module (flash.h / flash.cpp) -/

def FLASH_OFF : Nat := 0
def FLASH_LOW : Nat := 64
def FLASH_MEDIUM : Nat := 128
def FLASH_HIGH : Nat := 255
def LIGHT_CHECK_INTERVAL : Nat := 1000

/-- The `FlashManager` private state (flash.h). -/
structure FlashState where
  flash_ready : Bool
  current_duty : Nat
  light_threshold : Nat
  last_light_level : Nat
  last_light_check : Nat
  cached_light_result : Bool
  activation_count : Nat
  last_activation_time : Nat
  deriving Repr, DecidableEq

/-- `FlashManager::validateDutyRange` (flash.cpp): the full 0-255 range
is allowed. -/
def validateDutyRange (_duty : Nat) : Bool := true

/-- `FlashManager::setFlashDuty` (flash.cpp lines 61-81).  The
`ledcWrite` PWM call is recorded as a `setDuty` event. -/
def setFlashDuty (duty : Nat) (now : Nat) (st : FlashState) :
    Bool × FlashState × List Ev :=
  if !st.flash_ready || !validateDutyRange duty then (false, st, [])
  else
    let was_off := st.current_duty = 0
    let st1 := { st with current_duty := duty }
    let st2 :=
      if duty > 0 ∧ was_off then
        { st1 with activation_count := st1.activation_count + 1,
                   last_activation_time := now }
      else st1
    (true, st2, [Ev.setDuty duty])

/-- A frame buffer: `fb->buf` as a byte list, `fb->len` its length. -/
abbrev Frame := List Nat

/-- The sampling loop of `FlashManager::analyzeBrightness`: sum
`fb->buf[i]` for `i` from `start`, stepping by 4, while
`i < start + sample_size` and `i < len`. -/
def brightnessLoop (buf : Frame) (i stop : Nat) : Nat × Nat :=
  if _h : i < stop ∧ i < buf.length then
    let (s, c) := brightnessLoop buf (i + 4) stop
    (buf.getD i 0 + s, c + 1)
  else (0, 0)
termination_by stop - i
decreasing_by omega

/-- `FlashManager::analyzeBrightness` (flash.cpp lines 152-175). -/
def analyzeBrightness (fb : Frame) : Nat :=
  if fb.length = 0 then 0
  else
    let sample_size := min 500 (fb.length / 8)
    let start_offset := fb.length / 4
    let (sum, taken) := brightnessLoop fb start_offset (start_offset + sample_size)
    if taken = 0 then 0 else sum / taken

/-- `FlashManager::isLightLow(camera_fb_t*)` (flash.cpp lines 133-150):
the frame-buffer overload of the light check.  A null frame is `none`. -/
def isLightLowFrame (fb : Option Frame) (now : Nat) (st : FlashState) :
    Bool × FlashState :=
  match fb with
  | none => (true, st)
  | some f =>
    if f.length < 1000 then (true, st)
    else
      let brightness := analyzeBrightness f
      let is_low := brightness < st.light_threshold
      (is_low, { st with last_light_level := brightness,
                         last_light_check := now,
                         cached_light_result := is_low })

/-! ### Config module (config.h / config.cpp)

The EEPROM is a byte region modelled as `Nat → Nat` with cells `< 256`
(`EEPROM.write` takes a `uint8_t`, modelled by `% 256`).  C strings are
byte lists without interior zero bytes. -/

abbrev Store := Nat → Nat

def CONFIG_MAGIC : Nat := 0xCAFE
def CONFIG_VERSION : Nat := 1

def OFFSET_MAGIC : Nat := 0
def OFFSET_VERSION : Nat := 2
def OFFSET_WIFI_SSID : Nat := 4
def OFFSET_WIFI_PASSWORD : Nat := 68
def OFFSET_API_KEY : Nat := 132
def OFFSET_USE_STATIC_IP : Nat := 196
def OFFSET_STATIC_IP : Nat := 197
def OFFSET_GATEWAY : Nat := 201
def OFFSET_SUBNET : Nat := 205
def OFFSET_DNS_PRIMARY : Nat := 209
def OFFSET_DNS_SECONDARY : Nat := 213
def OFFSET_DEVICE_NAME : Nat := 217
def OFFSET_JPEG_QUALITY : Nat := 281
def OFFSET_DEFAULT_RESOLUTION : Nat := 282
def OFFSET_FLASH_THRESHOLD : Nat := 283

def SSID_MAX_LEN : Nat := 64
def PASSWORD_MAX_LEN : Nat := 64
def API_KEY_MAX_LEN : Nat := 64
def DEVICE_NAME_MAX_LEN : Nat := 64

/-- `EEPROM.write(offset, value)`: the cell holds a `uint8_t`. -/
def eepromWrite (offset value : Nat) (st : Store) : Store :=
  fun i => if i = offset then value % 256 else st i

/-- `EEPROM.read(offset)`. -/
def eepromRead (offset : Nat) (st : Store) : Nat := st offset

/-- The byte-writing loop of `ConfigManager::writeString`. -/
def writeBytes (offset : Nat) (bs : List Nat) (st : Store) : Store :=
  match bs with
  | [] => st
  | b :: rest => writeBytes (offset + 1) rest (eepromWrite offset b st)

/-- The null-padding loop of `ConfigManager::writeString`. -/
def writeZeros (offset n : Nat) (st : Store) : Store :=
  match n with
  | 0 => st
  | n + 1 => writeZeros (offset + 1) n (eepromWrite offset 0 st)

/-- `ConfigManager::writeString` (config.cpp): write
`min(strlen, max_len-1)` bytes, then pad the slot with zeros. -/
def writeString (offset : Nat) (s : List Nat) (maxLen : Nat) (st : Store) : Store :=
  let len := min s.length (maxLen - 1)
  writeZeros (offset + len) (maxLen - len) (writeBytes offset (s.take len) st)

/-- The read loop of `ConfigManager::readString`: collect bytes until a
zero or until the forced terminator at index `max_len - 1`. -/
def readChars (offset n : Nat) (st : Store) : List Nat :=
  match n with
  | 0 => []
  | n + 1 =>
    let b := st offset
    if b = 0 then [] else b :: readChars (offset + 1) n st

/-- `ConfigManager::readString` (config.cpp). -/
def readString (offset maxLen : Nat) (st : Store) : List Nat :=
  readChars offset (maxLen - 1) st

/-- `ConfigManager::writeUint16` (little-endian). -/
def writeUint16 (offset value : Nat) (st : Store) : Store :=
  eepromWrite (offset + 1) ((value >>> 8) % 256) (eepromWrite offset (value % 256) st)

/-- `ConfigManager::readUint16` (little-endian). -/
def readUint16 (offset : Nat) (st : Store) : Nat :=
  eepromRead offset st ||| (eepromRead (offset + 1) st <<< 8)

/-- `ConfigManager::writeUint8`. -/
def writeUint8 (offset value : Nat) (st : Store) : Store :=
  eepromWrite offset value st

/-- `ConfigManager::readUint8`. -/
def readUint8 (offset : Nat) (st : Store) : Nat := eepromRead offset st

/-- An `IPAddress`: four octets. -/
structure IPAddr where
  o0 : Nat
  o1 : Nat
  o2 : Nat
  o3 : Nat
  deriving Repr, DecidableEq

/-- `ConfigManager::writeIPAddress`. -/
def writeIPAddress (offset : Nat) (addr : IPAddr) (st : Store) : Store :=
  eepromWrite (offset + 3) addr.o3 (eepromWrite (offset + 2) addr.o2
    (eepromWrite (offset + 1) addr.o1 (eepromWrite offset addr.o0 st)))

/-- `ConfigManager::readIPAddress`. -/
def readIPAddress (offset : Nat) (st : Store) : IPAddr :=
  ⟨eepromRead offset st, eepromRead (offset + 1) st,
   eepromRead (offset + 2) st, eepromRead (offset + 3) st⟩

/-- `struct Configuration` from config.h. -/
structure Configuration where
  wifi_ssid : List Nat
  wifi_password : List Nat
  use_static_ip : Bool
  static_ip : IPAddr
  gateway : IPAddr
  subnet : IPAddr
  dns_primary : IPAddr
  dns_secondary : IPAddr
  api_key : List Nat
  device_name : List Nat
  jpeg_quality : Nat
  default_resolution : Nat
  flash_threshold : Nat
  deriving Repr, DecidableEq

/-- `ConfigManager::validateConfiguration` (config.cpp lines 315-347). -/
def validateConfiguration (c : Configuration) : Bool :=
  if c.wifi_ssid.length = 0 then false
  else if c.api_key.length = 0 then false
  else if c.jpeg_quality > 63 then false
  else if c.default_resolution < FRAMESIZE_96X96 ∨
          c.default_resolution > FRAMESIZE_UXGA then false
  else if c.use_static_ip ∧
          (c.static_ip = ⟨0, 0, 0, 0⟩ ∨ c.gateway = ⟨0, 0, 0, 0⟩ ∨
           c.subnet = ⟨0, 0, 0, 0⟩) then false
  else true

/-- `ConfigManager::saveConfig` (config.cpp lines 65-96): rewrite the
whole region, magic/version first.  `EEPROM.commit` is the external
persistence step and is modelled as succeeding. -/
def saveConfig (c : Configuration) (st : Store) : Store :=
  let st := writeUint16 OFFSET_MAGIC CONFIG_MAGIC st
  let st := writeUint16 OFFSET_VERSION CONFIG_VERSION st
  let st := writeString OFFSET_WIFI_SSID c.wifi_ssid SSID_MAX_LEN st
  let st := writeString OFFSET_WIFI_PASSWORD c.wifi_password PASSWORD_MAX_LEN st
  let st := writeString OFFSET_API_KEY c.api_key API_KEY_MAX_LEN st
  let st := writeString OFFSET_DEVICE_NAME c.device_name DEVICE_NAME_MAX_LEN st
  let st := writeUint8 OFFSET_USE_STATIC_IP (if c.use_static_ip then 1 else 0) st
  let st := writeIPAddress OFFSET_STATIC_IP c.static_ip st
  let st := writeIPAddress OFFSET_GATEWAY c.gateway st
  let st := writeIPAddress OFFSET_SUBNET c.subnet st
  let st := writeIPAddress OFFSET_DNS_PRIMARY c.dns_primary st
  let st := writeIPAddress OFFSET_DNS_SECONDARY c.dns_secondary st
  let st := writeUint8 OFFSET_JPEG_QUALITY c.jpeg_quality st
  let st := writeUint8 OFFSET_DEFAULT_RESOLUTION (c.default_resolution % 256) st
  let st := writeUint8 OFFSET_FLASH_THRESHOLD c.flash_threshold st
  st

/-- The field reads of `ConfigManager::loadConfig` (config.cpp lines 32-47). -/
def readConfiguration (st : Store) : Configuration where
  wifi_ssid := readString OFFSET_WIFI_SSID SSID_MAX_LEN st
  wifi_password := readString OFFSET_WIFI_PASSWORD PASSWORD_MAX_LEN st
  api_key := readString OFFSET_API_KEY API_KEY_MAX_LEN st
  device_name := readString OFFSET_DEVICE_NAME DEVICE_NAME_MAX_LEN st
  use_static_ip := readUint8 OFFSET_USE_STATIC_IP st ≠ 0
  static_ip := readIPAddress OFFSET_STATIC_IP st
  gateway := readIPAddress OFFSET_GATEWAY st
  subnet := readIPAddress OFFSET_SUBNET st
  dns_primary := readIPAddress OFFSET_DNS_PRIMARY st
  dns_secondary := readIPAddress OFFSET_DNS_SECONDARY st
  jpeg_quality := readUint8 OFFSET_JPEG_QUALITY st
  default_resolution := readUint8 OFFSET_DEFAULT_RESOLUTION st
  flash_threshold := readUint8 OFFSET_FLASH_THRESHOLD st

/-- `ConfigManager::loadConfig` (config.cpp lines 20-63).  `none` marks
the defaults-rewrite path (magic/version mismatch or validation
failure); `some c` is the successfully loaded record. -/
def loadConfig (st : Store) : Option Configuration :=
  if readUint16 OFFSET_MAGIC st ≠ CONFIG_MAGIC ∨
     readUint16 OFFSET_VERSION st ≠ CONFIG_VERSION then none
  else
    let c := readConfiguration st
    if !validateConfiguration c then none
    else some c

/-- The `ConfigManager` state seen by the API-key check: the in-memory
record and the `config_loaded` flag. -/
structure ConfigState where
  api_key : List Nat
  config_loaded : Bool
  deriving Repr, DecidableEq

/-- `ConfigManager::isAPIKeyValid` (config.cpp lines 212-231): null
candidate (`none`) or unloaded config fails, then length check, then a
constant-time XOR/OR accumulation over the bytes. -/
def isAPIKeyValid (cfg : ConfigState) (provided : Option (List Nat)) : Bool :=
  match provided with
  | none => false
  | some key =>
    if !cfg.config_loaded then false
    else if key.length ≠ cfg.api_key.length then false
    else
      let result := (key.zip cfg.api_key).foldl
        (fun r p => r ||| (p.1 ^^^ p.2)) 0
      result = 0

/-! ### Web server module (webserver.h / webserver.cpp)

Header and body text is a byte list (C `char` arrays); the request path
is compared with `strcmp`, modelled as `String` equality.  The
ArduinoJson library is external: JSON parse success and the settings
produced by `parseRequestSettings` are oracle inputs, and JSON
serialization is modelled by a tagged body. -/

def MAX_BODY_LENGTH : Nat := 4096

inductive RequestType where
  | get
  | post
  | unknown
  deriving Repr, DecidableEq

structure HttpRequest where
  type : RequestType
  path : String
  headers : List Nat
  body : List Nat
  has_content_length : Bool
  content_length : Int
  deriving Repr, DecidableEq

/-- The outcome of the header loop of `parseHttpRequest` (webserver.cpp
lines 96-163): request line and `Content-Length` as parsed from the
incoming stream.  The body-read loop below is the embedded part. -/
structure HeaderInfo where
  type : RequestType
  path : String
  headers : List Nat
  has_content_length : Bool
  content_length : Int
  deriving Repr, DecidableEq

/-- The body-read loop of `parseHttpRequest` (webserver.cpp lines
172-181): read while `bytes_read < content_length`, the 5 s idle timeout
has not fired, the client is connected, and
`bytes_read < sizeof(request.body) - 1`.  `arrival` is the byte
sequence the client delivers before the timeout or disconnect. -/
def readBodyLoop (bytesRead : Nat) (contentLength : Int) (arrival : List Nat) :
    List Nat :=
  if (bytesRead : Int) < contentLength ∧ bytesRead < MAX_BODY_LENGTH - 1 then
    match arrival with
    | [] => []
    | b :: rest => b :: readBodyLoop (bytesRead + 1) contentLength rest
  else []

/-- `WebServerManager::parseHttpRequest` (webserver.cpp lines 91-186)
after the header loop: read the POST body if declared, then succeed
exactly when the method was recognised. -/
def parseHttpRequest (h : HeaderInfo) (arrival : List Nat) : Bool × HttpRequest :=
  let body :=
    if h.type = RequestType.post ∧ h.has_content_length ∧ h.content_length > 0
    then readBodyLoop 0 h.content_length arrival
    else []
  (h.type ≠ RequestType.unknown,
   { type := h.type, path := h.path, headers := h.headers, body := body,
     has_content_length := h.has_content_length,
     content_length := h.content_length })

def isWsByte (c : Nat) : Bool := c == 32 || c == 9

def asciiToLower (c : Nat) : Nat :=
  if 65 ≤ c ∧ c ≤ 90 then c + 32 else c

/-- `strncasecmp(s, name, strlen(name)) == 0`. -/
def matchesCI : List Nat → List Nat → Bool
  | _, [] => true
  | [], _ :: _ => false
  | c :: cs, n :: ns => asciiToLower c == asciiToLower n && matchesCI cs ns

/-- Trailing-whitespace trim (the `while (len > 0 && ...)` loops of
`extractHttpHeader` and `processRequest`). -/
def trimTrailingWs (s : List Nat) : List Nat :=
  (s.reverse.dropWhile isWsByte).reverse

/-- The scanning loop of `WebServerManager::extractHttpHeader`
(webserver.cpp lines 192-251): at each line start, try a
case-insensitive match of the header name followed by optional
whitespace and a colon; on a hit return the value (up to CR/LF/end,
capped at `maxLen - 1`, trailing whitespace trimmed); otherwise skip to
just after the next newline. -/
def extractLoop (fuel : Nat) (hs name : List Nat) (maxLen : Nat) : List Nat :=
  match fuel, hs with
  | _, [] => []
  | 0, _ :: _ => []
  | fuel + 1, c :: cs =>
    let hs := c :: cs
    let hit :=
      if matchesCI hs name then
        let afterName := (hs.drop name.length).dropWhile isWsByte
        match afterName with
        | 58 :: afterColon =>
          let valueStart := afterColon.dropWhile isWsByte
          let value := (valueStart.takeWhile
            (fun b => b ≠ 0 ∧ b ≠ 13 ∧ b ≠ 10)).take (maxLen - 1)
          some (trimTrailingWs value)
        | _ => none
      else none
    match hit with
    | some v => v
    | none =>
      let rest := hs.dropWhile (fun b => b ≠ 10)
      if rest.isEmpty then [] else extractLoop fuel rest.tail name maxLen

/-- `WebServerManager::extractHttpHeader` (webserver.cpp lines 192-251).
The loop advances at least one character per iteration, so
`headers.length` is a fuel bound the scan can never exhaust. -/
def extractHttpHeader (headers name : List Nat) (maxLen : Nat) : List Nat :=
  if headers.length = 0 then [] else extractLoop headers.length headers name maxLen

/-- The serialized response (`struct ApiResponse`), with the
ArduinoJson-serialized bodies modelled as tags. -/
inductive BodyTag where
  | errorJson (msg : String) (code : Nat)
  | consoleHtml
  | statusJson
  | textPlain (s : String)
  | jpegBytes
  deriving Repr, DecidableEq

structure ApiResponse where
  status_code : Nat
  content_type : String
  is_binary : Bool
  body : BodyTag
  deriving Repr, DecidableEq

/-- `WebServerManager::createErrorResponse` (webserver.cpp): the JSON
error object `{status:"error", error:msg, code:n}`. -/
def createErrorResponse (msg : String) (code : Nat) : BodyTag :=
  BodyTag.errorJson msg code

/-- `WebServerManager::handleRoot` (webserver.cpp lines 336-346). -/
def handleRoot : ApiResponse :=
  { status_code := 200, content_type := "text/html", is_binary := false,
    body := BodyTag.consoleHtml }

/-- `WebServerManager::handleStatus` (webserver.cpp lines 348-362). -/
def handleStatus : ApiResponse :=
  { status_code := 200, content_type := "application/json", is_binary := false,
    body := BodyTag.statusJson }

/-- `WebServerManager::handle404` (webserver.cpp lines 470-481). -/
def handle404 : ApiResponse :=
  { status_code := 404, content_type := "text/plain", is_binary := false,
    body := BodyTag.textPlain "404 Not Found" }

/-- Oracles for the external pieces `handleSnapshot` consults:
`deserializeJson` success, the settings and flash request produced by
`parseRequestSettings` (which always returns `true`), the sensor
driver's frame deliveries and `malloc` success. -/
structure SnapEnv where
  jsonOk : Bool
  settings : CameraSettings
  use_flash : Bool
  frames : FrameOracle
  mallocOk : Bool
  deriving Repr, DecidableEq

/-- `WebServerManager::handleSnapshot` (webserver.cpp lines 364-468):
method check, JSON parse, settings parse, settings apply, flash on +
200 ms stabilization, `warmupCamera(3)`, final capture, flash off,
copy-out and release. -/
def handleSnapshot (req : HttpRequest) (env : SnapEnv) (cam : CamState)
    (fl : FlashState) (now : Nat) :
    ApiResponse × CamState × FlashState × List Ev :=
  if req.type ≠ RequestType.post then
    ({ status_code := 405, content_type := "application/json",
       is_binary := false, body := createErrorResponse "Method not allowed" 405 },
     cam, fl, [])
  else if !env.jsonOk then
    ({ status_code := 400, content_type := "application/json",
       is_binary := false, body := createErrorResponse "Invalid JSON" 400 },
     cam, fl, [])
  else
    let applied := applySettings env.settings cam
    if !applied.1 then
      ({ status_code := 500, content_type := "application/json",
         is_binary := false,
         body := createErrorResponse "Failed to apply camera settings" 500 },
       applied.2, fl, [])
    else
      let cam1 := applied.2
      let flashOn :=
        if env.use_flash then
          let r := setFlashDuty FLASH_MEDIUM now fl
          (r.2.1, r.2.2 ++ [Ev.delayMs 200])
        else (fl, [])
      let warm := warmupCamera 3 cam1 env.frames
      let cap := captureFrame cam1 warm.2.1 now
      let cam2 := cap.2.1
      let flashOff :=
        if env.use_flash then
          let r := setFlashDuty FLASH_OFF now flashOn.1
          (r.2.1, r.2.2)
        else (flashOn.1, [])
      let trace := flashOn.2 ++ warm.2.2 ++ cap.2.2.2 ++ flashOff.2
      if cap.1 then
        if env.mallocOk then
          ({ status_code := 200, content_type := "image/jpeg",
             is_binary := true, body := BodyTag.jpegBytes },
           cam2, flashOff.1, trace ++ [Ev.frameReturn])
        else
          ({ status_code := 500, content_type := "application/json",
             is_binary := false, body := createErrorResponse "Out of memory" 500 },
           cam2, flashOff.1, trace ++ [Ev.frameReturn])
      else
        ({ status_code := 500, content_type := "application/json",
           is_binary := false,
           body := createErrorResponse "Camera capture failed" 500 },
         cam2, flashOff.1, trace)

def authorizationName : List Nat := "Authorization".toList.map Char.toNat

def bearerBytes : List Nat := "Bearer ".toList.map Char.toNat

/-- The API-key candidate `processRequest` builds from a request: the
`Authorization` header value, with an optional `Bearer ` prefix removed
(`strncmp` + `strncpy` with a 255-byte cap) and trailing whitespace
trimmed. -/
def authCandidate (req : HttpRequest) : List Nat :=
  let auth := extractHttpHeader req.headers authorizationName 256
  let key := if auth.take 7 = bearerBytes then (auth.drop 7).take 255
             else auth.take 255
  trimTrailingWs key

/-- The routing chain of `WebServerManager::processRequest`
(webserver.cpp lines 293-302). -/
def routeRequest (req : HttpRequest) (env : SnapEnv) (cam : CamState)
    (fl : FlashState) (now : Nat) :
    ApiResponse × CamState × FlashState × List Ev :=
  if req.path = "/" then (handleRoot, cam, fl, [])
  else if req.path = "/status" then (handleStatus, cam, fl, [])
  else if req.path = "/snapshot" then handleSnapshot req env cam fl now
  else (handle404, cam, fl, [])

/-- `WebServerManager::processRequest` (webserver.cpp lines 253-303):
the authentication gate for every path other than `/`, then routing. -/
def processRequest (req : HttpRequest) (cfg : ConfigState) (env : SnapEnv)
    (cam : CamState) (fl : FlashState) (now : Nat) :
    ApiResponse × CamState × FlashState × List Ev :=
  if req.path ≠ "/" then
    let key := authCandidate req
    if cfg.api_key.length > 0 ∧ !isAPIKeyValid cfg (some key) then
      ({ status_code := 401, content_type := "application/json",
         is_binary := false,
         body := createErrorResponse "Unauthorized: Invalid or missing API key" 401 },
       cam, fl, [])
    else routeRequest req env cam fl now
  else routeRequest req env cam fl now

/-- Outcome of `WebServerManager::handleClient` (webserver.cpp lines
53-89): on parse failure the connection is closed without any response;
otherwise the `processRequest` response is sent. -/
inductive ClientOutcome where
  | dropped
  | sent (resp : ApiResponse)
  deriving Repr, DecidableEq

/-- `WebServerManager::handleClient` (webserver.cpp lines 53-89). -/
def handleClient (h : HeaderInfo) (arrival : List Nat) (cfg : ConfigState)
    (env : SnapEnv) (cam : CamState) (fl : FlashState) (now : Nat) :
    ClientOutcome :=
  let parsed := parseHttpRequest h arrival
  if !parsed.1 then ClientOutcome.dropped
  else ClientOutcome.sent (processRequest parsed.2 cfg env cam fl now).1

/-! ### Helper lemmas -/

lemma lor_eq_zero_iff (a b : Nat) : a ||| b = 0 ↔ a = 0 ∧ b = 0 := by
  constructor
  · intro h
    constructor
    · by_contra ha
      obtain ⟨i, hi⟩ := Nat.exists_most_significant_bit ha
      have h2 : (a ||| b).testBit i = true := by
        rw [Nat.testBit_lor, hi.1]; rfl
      rw [h] at h2; simp [Nat.zero_testBit] at h2
    · by_contra hb
      obtain ⟨i, hi⟩ := Nat.exists_most_significant_bit hb
      have h2 : (a ||| b).testBit i = true := by
        rw [Nat.testBit_lor, hi.1]; simp
      rw [h] at h2; simp [Nat.zero_testBit] at h2
  · rintro ⟨rfl, rfl⟩; rfl

lemma foldl_or_xor_eq_zero (l : List (Nat × Nat)) (a : Nat) :
    l.foldl (fun r p => r ||| (p.1 ^^^ p.2)) a = 0 ↔
      a = 0 ∧ ∀ p ∈ l, p.1 = p.2 := by
  induction l generalizing a with
  | nil => simp
  | cons p rest ih =>
    simp only [List.foldl_cons, ih, lor_eq_zero_iff, Nat.xor_eq_zero,
      List.mem_cons]
    constructor
    · rintro ⟨⟨h1, h2⟩, h3⟩
      exact ⟨h1, fun q hq => by rcases hq with rfl | hq; exact h2; exact h3 q hq⟩
    · rintro ⟨h1, h2⟩
      exact ⟨⟨h1, h2 p (Or.inl rfl)⟩, fun q hq => h2 q (Or.inr hq)⟩

lemma zip_forall_eq (a b : List Nat) (hlen : a.length = b.length) :
    (∀ p ∈ a.zip b, p.1 = p.2) ↔ a = b := by
  induction a generalizing b with
  | nil => cases b with
    | nil => simp
    | cons y ys => simp at hlen
  | cons x xs ih =>
    cases b with
    | nil => simp at hlen
    | cons y ys =>
      simp only [List.zip_cons_cons, List.mem_cons, List.cons.injEq]
      simp only [List.length_cons, Nat.add_right_cancel_iff] at hlen
      constructor
      · intro h
        refine ⟨h (x, y) (Or.inl rfl), (ih ys hlen).mp ?_⟩
        intro q hq; exact h q (Or.inr hq)
      · rintro ⟨h1, h2⟩
        subst h1; subst h2
        intro q hq
        rcases hq with rfl | hq
        · rfl
        · exact ((ih xs hlen).mpr rfl) q hq

/-- `isAPIKeyValid` on a non-null candidate accepts exactly when the
configuration is loaded and the bytes match. -/
lemma isAPIKeyValid_some_iff (cfg : ConfigState) (key : List Nat) :
    isAPIKeyValid cfg (some key) = true ↔
      cfg.config_loaded = true ∧ key = cfg.api_key := by
  cases hl : cfg.config_loaded with
  | false => simp [isAPIKeyValid, hl]
  | true =>
    by_cases hlen : key.length = cfg.api_key.length
    · simp only [isAPIKeyValid, hl, Bool.not_true, Bool.false_eq_true, if_false,
        hlen, ne_eq, not_true_eq_false, decide_eq_true_eq,
        foldl_or_xor_eq_zero, true_and]
      exact zip_forall_eq key cfg.api_key hlen
    · have hne : key ≠ cfg.api_key := fun h => hlen (by rw [h])
      simp [isAPIKeyValid, hl, hlen, hne]

/-! ### C7: `isAPIKeyValid` is exact byte equality -/

/-- C7.  With the configuration loaded, `isAPIKeyValid` accepts a
candidate iff it is byte-for-byte equal to the stored `api_key`; a null
candidate or an unloaded configuration is always rejected. -/
theorem isAPIKeyValid_spec (cfg : ConfigState) (key : List Nat) :
    (cfg.config_loaded = true →
      (isAPIKeyValid cfg (some key) = true ↔ key = cfg.api_key)) ∧
    isAPIKeyValid cfg none = false ∧
    (cfg.config_loaded = false → ∀ c, isAPIKeyValid cfg c = false) := by
  refine ⟨?_, rfl, ?_⟩
  · intro hl
    rw [isAPIKeyValid_some_iff]
    simp [hl]
  · intro hl c
    cases c with
    | none => rfl
    | some k =>
      rw [Bool.eq_false_iff]
      intro h
      rw [isAPIKeyValid_some_iff] at h
      rw [h.1] at hl
      simp at hl

/-- Witness for C7 at a concrete loaded configuration and matching key. -/
theorem isAPIKeyValid_spec_witness :
    isAPIKeyValid ⟨[107, 49], true⟩ (some [107, 49]) = true :=
  ((isAPIKeyValid_spec ⟨[107, 49], true⟩ [107, 49]).1 rfl).mpr rfl

/-! ### C1: applySettings exposure rule -/

/-- C1.  For settings within the legal ranges applied to a ready
camera, `applySettings` succeeds and leaves the sensor with:
auto-exposure enabled whenever the resolution is above VGA (regardless
of the requested exposure) or the requested exposure is 0; and manual
exposure at the requested value for resolutions at most VGA with a
nonzero exposure. -/
theorem applySettings_exposure_rule (s : CameraSettings) (st : CamState)
    (hready : st.camera_ready = true) (hvalid : validateSettings s = true) :
    (applySettings s st).1 = true ∧
    (FRAMESIZE_VGA < s.resolution →
       (applySettings s st).2.sensor.exposure_ctrl = true) ∧
    (s.resolution ≤ FRAMESIZE_VGA → s.exposure = 0 →
       (applySettings s st).2.sensor.exposure_ctrl = true) ∧
    (s.resolution ≤ FRAMESIZE_VGA → 0 < s.exposure →
       (applySettings s st).2.sensor.exposure_ctrl = false ∧
       (applySettings s st).2.sensor.aec_value = s.exposure) := by
  have hv := hvalid
  unfold validateSettings at hv
  split_ifs at hv with h1 h2 h3 h4 h5 h6 h7 h8
  try simp at hv
  have hexp1200 : s.exposure ≤ 1200 := by omega
  have hcon : constrainN s.exposure 0 1200 = s.exposure := by
    unfold constrainN
    rw [if_neg (by omega), if_neg (by omega)]
  by_cases hres : s.resolution = st.current_resolution
  · by_cases hman : s.resolution ≤ FRAMESIZE_VGA ∧ s.exposure > 0 <;>
      simp [applySettings, setResolution, hready, hvalid, hres.symm, hman, hcon,
        apply_ite SensorState.exposure_ctrl, apply_ite SensorState.aec_value] <;>
      omega
  · by_cases hman : s.resolution ≤ FRAMESIZE_VGA ∧ s.exposure > 0 <;>
      simp [applySettings, setResolution, hready, hvalid, hres, hman, hcon,
        apply_ite SensorState.exposure_ctrl, apply_ite SensorState.aec_value] <;>
      omega

/-- Witness for C1: both gates of the exposure rule at concrete
inputs (UXGA with nonzero exposure, VGA with nonzero exposure). -/
theorem applySettings_exposure_rule_witness :
    ((applySettings
        ⟨FRAMESIZE_UXGA, 0, 0, 0, 300, 0, 0, 0, false, false⟩
        ⟨true, FRAMESIZE_VGA, 0, 0, 0,
          ⟨8, 0, 0, 0, 0, true, true, 0, true, 0, false, false, true, 300, false⟩⟩).2.sensor.exposure_ctrl
      = true) ∧
    ((applySettings
        ⟨FRAMESIZE_VGA, 0, 0, 0, 700, 0, 0, 0, false, false⟩
        ⟨true, FRAMESIZE_VGA, 0, 0, 0,
          ⟨8, 0, 0, 0, 0, true, true, 0, true, 0, false, false, true, 300, false⟩⟩).2.sensor.aec_value
      = 700) := by
  constructor
  · exact (applySettings_exposure_rule _ _ rfl (by decide)).2.1 (by decide)
  · exact ((applySettings_exposure_rule _ _ rfl (by decide)).2.2.2
      (by decide) (by decide)).2

/-! ### C10: small frames short-circuit the light check -/

/-- C10.  `isLightLow(fb)` on a null frame or a frame shorter than 1000
bytes returns `true` (flash on) for every threshold and leaves the
cached light level, its timestamp and the rest of the flash state
untouched. -/
theorem isLightLow_small_frame (fb : Option Frame) (now : Nat)
    (st : FlashState)
    (h : fb = none ∨ ∃ f, fb = some f ∧ f.length < 1000) :
    isLightLowFrame fb now st = (true, st) := by
  rcases h with rfl | ⟨f, rfl, hlen⟩
  · rfl
  · simp [isLightLowFrame, hlen]

/-- Witness for C10: a concrete 999-byte frame. -/
theorem isLightLow_small_frame_witness :
    isLightLowFrame (some (List.replicate 999 7)) 42
      ⟨true, 0, 100, 255, 0, true, 0, 0⟩ =
      (true, ⟨true, 0, 100, 255, 0, true, 0, 0⟩) :=
  isLightLow_small_frame _ 42 _
    (Or.inr ⟨List.replicate 999 7, rfl, by rw [List.length_replicate]; omega⟩)

/-! ### C2 / C8: the authentication gate -/

/-- Byte list of a string, for concrete requests. -/
def strBytes (s : String) : List Nat := s.toList.map Char.toNat

lemma handleSnapshot_status_ne_401 (req : HttpRequest) (env : SnapEnv)
    (cam : CamState) (fl : FlashState) (now : Nat) :
    (handleSnapshot req env cam fl now).1.status_code ≠ 401 := by
  unfold handleSnapshot
  split_ifs <;> simp <;> split_ifs <;> simp

lemma routeRequest_status_ne_401 (req : HttpRequest) (env : SnapEnv)
    (cam : CamState) (fl : FlashState) (now : Nat) :
    (routeRequest req env cam fl now).1.status_code ≠ 401 := by
  unfold routeRequest
  split_ifs <;> first
    | exact handleSnapshot_status_ne_401 req env cam fl now
    | simp [handleRoot, handleStatus, handle404]

/-- C2.  For a request whose path is not `/`, when the stored `api_key`
is non-empty and the candidate obtained from the `Authorization` header
(optional `Bearer ` prefix removed, whitespace trimmed; a missing header
yields the empty candidate) differs from the stored key, `processRequest`
answers 401 with the JSON error body instead of routing. -/
theorem processRequest_auth_gate (req : HttpRequest) (cfg : ConfigState)
    (env : SnapEnv) (cam : CamState) (fl : FlashState) (now : Nat)
    (hpath : req.path ≠ "/")
    (hkey : cfg.api_key ≠ [])
    (hmismatch : authCandidate req ≠ cfg.api_key) :
    (processRequest req cfg env cam fl now).1 =
      { status_code := 401, content_type := "application/json",
        is_binary := false,
        body := BodyTag.errorJson "Unauthorized: Invalid or missing API key" 401 } := by
  have hvalid : isAPIKeyValid cfg (some (authCandidate req)) = false := by
    rw [Bool.eq_false_iff]
    intro h
    exact hmismatch ((isAPIKeyValid_some_iff cfg _).mp h).2
  have hlen : cfg.api_key.length > 0 := List.length_pos.mpr hkey
  simp [processRequest, hpath, hvalid, hlen, createErrorResponse]

/-- Witness for C2: a concrete `/status` request with a wrong bearer
key against a loaded configuration storing key `k1`. -/
theorem processRequest_auth_gate_witness :
    (processRequest
      { type := RequestType.get, path := "/status",
        headers := strBytes "Authorization: Bearer nope\n", body := [],
        has_content_length := false, content_length := 0 }
      ⟨strBytes "k1", true⟩
      ⟨true, ⟨8, 0, 0, 0, 300, 0, 0, 0, false, false⟩, false, [], true⟩
      ⟨true, 8, 0, 0, 0, ⟨8, 0, 0, 0, 0, true, true, 0, true, 0, false, false, true, 300, false⟩⟩
      ⟨true, 0, 100, 255, 0, true, 0, 0⟩ 0).1.status_code = 401 := by
  rw [processRequest_auth_gate _ _ _ _ _ _ (by decide) (by decide) (by decide)]

/-- C8.  With an empty stored `api_key`, `processRequest` performs no
authentication at all: every request is routed directly to its handler,
and no 401 is ever produced, whatever the `Authorization` header says. -/
theorem processRequest_empty_key_bypass (req : HttpRequest) (cfg : ConfigState)
    (env : SnapEnv) (cam : CamState) (fl : FlashState) (now : Nat)
    (hkey : cfg.api_key = []) :
    processRequest req cfg env cam fl now = routeRequest req env cam fl now ∧
    (processRequest req cfg env cam fl now).1.status_code ≠ 401 := by
  have hroute : processRequest req cfg env cam fl now =
      routeRequest req env cam fl now := by
    by_cases hp : req.path = "/" <;> simp [processRequest, hp, hkey]
  exact ⟨hroute, hroute ▸ routeRequest_status_ne_401 req env cam fl now⟩

/-- Witness for C8: a `/status` request with no credentials is served
with 200 when the stored key is empty. -/
theorem processRequest_empty_key_bypass_witness :
    (processRequest
      { type := RequestType.get, path := "/status", headers := [], body := [],
        has_content_length := false, content_length := 0 }
      ⟨[], false⟩
      ⟨true, ⟨8, 0, 0, 0, 300, 0, 0, 0, false, false⟩, false, [], true⟩
      ⟨true, 8, 0, 0, 0, ⟨8, 0, 0, 0, 0, true, true, 0, true, 0, false, false, true, 300, false⟩⟩
      ⟨true, 0, 100, 255, 0, true, 0, 0⟩ 0).1.status_code = 200 := by
  rw [(processRequest_empty_key_bypass _ _ _ _ _ _ rfl).1]
  rfl

/-! ### C9 / C3: the body-read loop -/

lemma readBodyLoop_eq_take (n : Int) :
    ∀ (arrival : List Nat) (k : Nat),
      readBodyLoop k n arrival =
        arrival.take (min (n.toNat - k) (MAX_BODY_LENGTH - 1 - k)) := by
  intro arrival
  induction arrival with
  | nil => intro k; unfold readBodyLoop; split <;> simp
  | cons b rest ih =>
    intro k
    unfold readBodyLoop
    split
    · next hcond =>
      obtain ⟨h1, h2⟩ := hcond
      dsimp only
      rw [ih (k + 1)]
      have hn : n.toNat - k = (n.toNat - (k + 1)) + 1 := by omega
      have hm : MAX_BODY_LENGTH - 1 - k = (MAX_BODY_LENGTH - 1 - (k + 1)) + 1 := by
        unfold MAX_BODY_LENGTH at h2 ⊢; omega
      rw [hn, hm, Nat.succ_min_succ, List.take_succ_cons]
    · next hcond =>
      rw [not_and_or] at hcond
      have : min (n.toNat - k) (MAX_BODY_LENGTH - 1 - k) = 0 := by
        rcases hcond with hc | hc
        · have : n ≤ (k : Int) := by omega
          have : n.toNat ≤ k := by omega
          omega
        · omega
      rw [this, List.take_zero]

/-- C9.  The body reader never stores more than
`sizeof(request.body) - 1 = 4095` bytes (the final slot holds the null
terminator); a `Content-Length` larger than the buffer is not an error:
parsing still succeeds and the body is silently truncated to the first
4095 delivered bytes. -/
theorem parseHttpRequest_body_safe (h : HeaderInfo) (arrival : List Nat) :
    (parseHttpRequest h arrival).2.body.length ≤ MAX_BODY_LENGTH - 1 ∧
    ((parseHttpRequest h arrival).1 = true ↔ h.type ≠ RequestType.unknown) ∧
    (h.type = RequestType.post → h.has_content_length = true →
      (MAX_BODY_LENGTH - 1 : Nat) < h.content_length →
      (parseHttpRequest h arrival).2.body =
        arrival.take (MAX_BODY_LENGTH - 1)) := by
  refine ⟨?_, by simp [parseHttpRequest], ?_⟩
  · unfold parseHttpRequest
    split
    · rw [readBodyLoop_eq_take]
      simp only [Nat.sub_zero]
      calc (arrival.take (min h.content_length.toNat (MAX_BODY_LENGTH - 1))).length
          ≤ min h.content_length.toNat (MAX_BODY_LENGTH - 1) :=
            List.length_take_le _ _
        _ ≤ MAX_BODY_LENGTH - 1 := Nat.min_le_right _ _
    · simp
  · intro hpost hcl hbig
    have hgt : (0 : Int) < h.content_length := by
      have : ((MAX_BODY_LENGTH - 1 : Nat) : Int) < h.content_length := hbig
      omega
    simp only [parseHttpRequest, hpost, hcl, hgt, and_self, if_true, true_and]
    rw [readBodyLoop_eq_take]
    simp only [Nat.sub_zero]
    congr 1
    omega

/-- Witness for C9: a POST declaring 5000 bytes is truncated to the
first 4095 delivered bytes and still parses successfully. -/
theorem parseHttpRequest_body_safe_witness :
    (parseHttpRequest ⟨RequestType.post, "/snapshot", [], true, 5000⟩
        (List.replicate 6000 7)).2.body =
      (List.replicate 6000 7).take (MAX_BODY_LENGTH - 1) ∧
    (parseHttpRequest ⟨RequestType.post, "/snapshot", [], true, 5000⟩
        (List.replicate 6000 7)).1 = true := by
  constructor
  · exact (parseHttpRequest_body_safe _ _).2.2 rfl rfl (by decide)
  · rw [(parseHttpRequest_body_safe
      ⟨RequestType.post, "/snapshot", [], true, 5000⟩ (List.replicate 6000 7)).2.1]
    decide

/-- C3 counterexample: a POST `/status` declaring `Content-Length: 10`
whose client delivers 0 body bytes before the timeout is answered 200,
not 400 — a short body read is never turned into an error response. -/
theorem shortBody_no_400_counterexample :
    handleClient ⟨RequestType.post, "/status", [], true, 10⟩ []
      ⟨[], false⟩
      ⟨true, ⟨8, 0, 0, 0, 300, 0, 0, 0, false, false⟩, false, [], true⟩
      ⟨true, 8, 0, 0, 0, ⟨8, 0, 0, 0, 0, true, true, 0, true, 0, false, false, true, 300, false⟩⟩
      ⟨true, 0, 100, 255, 0, true, 0, 0⟩ 0 =
    ClientOutcome.sent
      { status_code := 200, content_type := "application/json",
        is_binary := false, body := BodyTag.statusJson } := by
  decide

/-- C3 amended.  For a POST with `Content-Length: n > 0` the parser
stores exactly `min(n, 4095)` bytes, or every byte that arrives before
the 5 s idle timeout if fewer; a short read is not detected: parsing
succeeds and the dispatcher routes the request with the truncated body
(any 400 can only come from the route handler itself). -/
theorem parseHttpRequest_body_read (h : HeaderInfo) (arrival : List Nat)
    (cfg : ConfigState) (env : SnapEnv) (cam : CamState) (fl : FlashState)
    (now : Nat)
    (hpost : h.type = RequestType.post)
    (hcl : h.has_content_length = true)
    (hpos : 0 < h.content_length) :
    (parseHttpRequest h arrival).2.body =
      arrival.take (min h.content_length.toNat (MAX_BODY_LENGTH - 1)) ∧
    (parseHttpRequest h arrival).1 = true ∧
    handleClient h arrival cfg env cam fl now =
      ClientOutcome.sent
        (processRequest (parseHttpRequest h arrival).2 cfg env cam fl now).1 := by
  have hparse : (parseHttpRequest h arrival).1 = true := by
    simp [parseHttpRequest, hpost]
  refine ⟨?_, hparse, ?_⟩
  · simp only [parseHttpRequest, hpost, hcl, hpos, and_self, if_true, true_and]
    rw [readBodyLoop_eq_take]
    simp
  · simp [handleClient, hparse]

/-- Witness for the amended C3: 3 of 10 declared bytes arrive; the body
is those 3 bytes and the request is still dispatched. -/
theorem parseHttpRequest_body_read_witness :
    (parseHttpRequest ⟨RequestType.post, "/snapshot", [], true, 10⟩
        [1, 2, 3]).2.body = [1, 2, 3] := by
  rw [(parseHttpRequest_body_read ⟨RequestType.post, "/snapshot", [], true, 10⟩
    [1, 2, 3] ⟨[], false⟩
    ⟨true, ⟨8, 0, 0, 0, 300, 0, 0, 0, false, false⟩, false, [], true⟩
    ⟨true, 8, 0, 0, 0, ⟨8, 0, 0, 0, 0, true, true, 0, true, 0, false, false, true, 300, false⟩⟩
    ⟨true, 0, 100, 255, 0, true, 0, 0⟩ 0 rfl rfl (by decide)).1]
  decide

/-! ### C4 / C5: the snapshot capture sequence -/

lemma applySettings_preserves_ready (s : CameraSettings) (st : CamState) :
    (applySettings s st).2.camera_ready = st.camera_ready := by
  unfold applySettings setResolution
  split_ifs <;> rfl

lemma applySettings_ok_ready (s : CameraSettings) (st : CamState)
    (h : (applySettings s st).1 = true) : st.camera_ready = true := by
  by_contra hc
  have hr : st.camera_ready = false := by
    cases hcr : st.camera_ready
    · rfl
    · exact absurd hcr hc
  unfold applySettings at h
  rw [hr] at h
  simp at h

lemma warmupLoop_no_setDuty (n : Nat) :
    ∀ (fr : FrameOracle), ∀ e ∈ (warmupLoop n fr).2.2, e.isSetDuty = false := by
  induction n with
  | zero => intro fr e he; simp [warmupLoop] at he
  | succ n ih =>
    intro fr e he
    cases fr with
    | nil =>
      simp only [warmupLoop, fbGet] at he
      simp at he
      subst he; rfl
    | cons b rest =>
      cases b with
      | true =>
        simp only [warmupLoop, fbGet, if_true] at he
        simp only [List.mem_cons] at he
        rcases he with rfl | rfl | rfl | he
        · rfl
        · rfl
        · rfl
        · exact ih rest e he
      | false =>
        simp only [warmupLoop, fbGet] at he
        simp at he
        subst he; rfl

lemma captureFrame_trace (st : CamState) (fr : FrameOracle) (now : Nat) :
    ∀ e ∈ (captureFrame st fr now).2.2.2, e = Ev.frameGet := by
  intro e he
  cases fr <;>
    simp only [captureFrame, fbGet] at he <;>
    split_ifs at he <;> simp_all

lemma setFlashDuty_ready_eval (d now : Nat) (fl : FlashState)
    (h : fl.flash_ready = true) :
    (setFlashDuty d now fl).2.1.current_duty = d ∧
    (setFlashDuty d now fl).2.1.flash_ready = true ∧
    (setFlashDuty d now fl).2.2 = [Ev.setDuty d] := by
  simp [setFlashDuty, validateDutyRange, h, apply_ite FlashState.current_duty,
    apply_ite FlashState.flash_ready]

/-- C4 counterexample: a concrete `POST /snapshot` run with flash off and
frames available requests 4 frames in total (3 warm-up discards plus the
final capture), not the 1 + 1 = 2 the claim predicts. -/
theorem handleSnapshot_warmup_counterexample :
    (((handleSnapshot
        { type := RequestType.post, path := "/snapshot", headers := [],
          body := [], has_content_length := false, content_length := 0 }
        ⟨true, ⟨8, 0, 0, 0, 300, 0, 0, 0, false, false⟩, false,
          [true, true, true, true], true⟩
        ⟨true, 8, 0, 0, 0, ⟨8, 0, 0, 0, 0, true, true, 0, true, 0, false, false, true, 300, false⟩⟩
        ⟨true, 0, 100, 255, 0, true, 0, 0⟩ 0).2.2.2).filter
      Ev.isFrameGet).length = 4 ∧
    ¬ (((handleSnapshot
        { type := RequestType.post, path := "/snapshot", headers := [],
          body := [], has_content_length := false, content_length := 0 }
        ⟨true, ⟨8, 0, 0, 0, 300, 0, 0, 0, false, false⟩, false,
          [true, true, true, true], true⟩
        ⟨true, 8, 0, 0, 0, ⟨8, 0, 0, 0, 0, true, true, 0, true, 0, false, false, true, 300, false⟩⟩
        ⟨true, 0, 100, 255, 0, true, 0, 0⟩ 0).2.2.2).filter
      Ev.isFrameGet).length = 2 := by
  constructor <;> decide

/-- C4 amended.  The snapshot capture sequence calls `warmupCamera(3)`
unconditionally: with frames available it requests and discards exactly
3 warm-up frames before the final capture, for flash on and off alike
(the trace below has 3 get/return/delay warm-up triples, then the final
get, then the release of the delivered frame). -/
theorem handleSnapshot_warmup_count (req : HttpRequest) (env : SnapEnv)
    (cam : CamState) (fl : FlashState) (now : Nat) (rest : FrameOracle)
    (hpost : req.type = RequestType.post)
    (hjson : env.jsonOk = true)
    (happly : (applySettings env.settings cam).1 = true)
    (hfl : fl.flash_ready = true)
    (hframes : env.frames = true :: true :: true :: true :: rest) :
    (handleSnapshot req env cam fl now).2.2.2 =
      (if env.use_flash then [Ev.setDuty 128, Ev.delayMs 200] else []) ++
      [Ev.frameGet, Ev.frameReturn, Ev.delayMs 100,
       Ev.frameGet, Ev.frameReturn, Ev.delayMs 100,
       Ev.frameGet, Ev.frameReturn, Ev.delayMs 100,
       Ev.frameGet] ++
      (if env.use_flash then [Ev.setDuty 0] else []) ++
      [Ev.frameReturn] := by
  have hready1 : (applySettings env.settings cam).2.camera_ready = true := by
    rw [applySettings_preserves_ready]
    exact applySettings_ok_ready _ _ happly
  have hd128 := setFlashDuty_ready_eval 128 now fl hfl
  have hd0 := setFlashDuty_ready_eval 0 now
      (setFlashDuty 128 now fl).2.1 hd128.2.1
  cases huf : env.use_flash <;>
    cases hmal : env.mallocOk <;>
      simp [handleSnapshot, hpost, hjson, happly, huf, hmal, hframes,
        warmupCamera, warmupLoop, fbGet, captureFrame, hready1,
        hd128.2.2, hd0.2.2, FLASH_MEDIUM, FLASH_OFF]

/-- Witness for the amended C4 at a concrete flash-on run. -/
theorem handleSnapshot_warmup_count_witness :
    (handleSnapshot
      { type := RequestType.post, path := "/snapshot", headers := [],
        body := [], has_content_length := false, content_length := 0 }
      ⟨true, ⟨8, 0, 0, 0, 300, 0, 0, 0, false, false⟩, true,
        [true, true, true, true], true⟩
      ⟨true, 8, 0, 0, 0, ⟨8, 0, 0, 0, 0, true, true, 0, true, 0, false, false, true, 300, false⟩⟩
      ⟨true, 0, 100, 255, 0, true, 0, 0⟩ 0).2.2.2 =
    [Ev.setDuty 128, Ev.delayMs 200,
     Ev.frameGet, Ev.frameReturn, Ev.delayMs 100,
     Ev.frameGet, Ev.frameReturn, Ev.delayMs 100,
     Ev.frameGet, Ev.frameReturn, Ev.delayMs 100,
     Ev.frameGet, Ev.setDuty 0, Ev.frameReturn] := by
  rw [handleSnapshot_warmup_count _ _ _ _ _ [] rfl rfl (by decide) rfl rfl]
  decide

/-- C5.  In a snapshot request whose settings applied successfully (on
a ready flash module): with flash requested, the duty is set to 128
before any frame is requested and back to 0 after the final capture, so
it is 0 when the response is sent; without flash the duty is never
touched and the flash state is unchanged. -/
theorem handleSnapshot_flash_sequence (req : HttpRequest) (env : SnapEnv)
    (cam : CamState) (fl : FlashState) (now : Nat)
    (hpost : req.type = RequestType.post)
    (hjson : env.jsonOk = true)
    (happly : (applySettings env.settings cam).1 = true)
    (hfl : fl.flash_ready = true) :
    (env.use_flash = true →
      (handleSnapshot req env cam fl now).2.2.1.current_duty = 0 ∧
      ∃ mid rel,
        (handleSnapshot req env cam fl now).2.2.2 =
          Ev.setDuty 128 :: Ev.delayMs 200 :: (mid ++ Ev.setDuty 0 :: rel) ∧
        (∀ e ∈ mid, e.isSetDuty = false) ∧
        (∀ e ∈ rel, e.isSetDuty = false ∧ e.isFrameGet = false)) ∧
    (env.use_flash = false →
      (∀ e ∈ (handleSnapshot req env cam fl now).2.2.2, e.isSetDuty = false) ∧
      (handleSnapshot req env cam fl now).2.2.1 = fl) := by
  have hready1 : (applySettings env.settings cam).2.camera_ready = true := by
    rw [applySettings_preserves_ready]
    exact applySettings_ok_ready _ _ happly
  have hd128 := setFlashDuty_ready_eval 128 now fl hfl
  have hd0 := setFlashDuty_ready_eval 0 now
      (setFlashDuty 128 now fl).2.1 hd128.2.1
  have hwarm := warmupLoop_no_setDuty 3
  have hcap := captureFrame_trace (applySettings env.settings cam).2
  constructor
  · intro huf
    constructor
    · cases hmal : env.mallocOk <;>
        cases hcapb : (captureFrame (applySettings env.settings cam).2
            (warmupCamera 3 (applySettings env.settings cam).2 env.frames).2.1 now).1 <;>
          simp [handleSnapshot, hpost, hjson, happly, huf, hmal, hcapb,
            hd0.1, FLASH_MEDIUM, FLASH_OFF]
    · refine ⟨(warmupCamera 3 (applySettings env.settings cam).2 env.frames).2.2 ++
        (captureFrame (applySettings env.settings cam).2
          (warmupCamera 3 (applySettings env.settings cam).2 env.frames).2.1 now).2.2.2,
        (if (captureFrame (applySettings env.settings cam).2
            (warmupCamera 3 (applySettings env.settings cam).2 env.frames).2.1 now).1
         then [Ev.frameReturn] else []), ?_, ?_, ?_⟩
      · cases hmal : env.mallocOk <;>
          cases hcapb : (captureFrame (applySettings env.settings cam).2
              (warmupCamera 3 (applySettings env.settings cam).2 env.frames).2.1 now).1 <;>
            simp [handleSnapshot, hpost, hjson, happly, huf, hmal, hcapb,
              hd128.2.2, hd0.2.2, FLASH_MEDIUM, FLASH_OFF]
      · intro e he
        rcases List.mem_append.mp he with hw | hc
        · have : ∀ e ∈ (warmupCamera 3 (applySettings env.settings cam).2 env.frames).2.2,
              e.isSetDuty = false := by
            unfold warmupCamera
            rw [hready1]
            simpa using hwarm env.frames
          exact this e hw
        · rw [hcap _ now e hc]; rfl
      · intro e he
        split_ifs at he with hcb
        · simp at he; subst he; exact ⟨rfl, rfl⟩
        · simp at he
  · intro huf
    have hwarmAll : ∀ x ∈ (warmupCamera 3 (applySettings env.settings cam).2 env.frames).2.2,
        Ev.isSetDuty x = false := by
      unfold warmupCamera
      rw [hready1]
      simpa using hwarm env.frames
    have htr : (handleSnapshot req env cam fl now).2.2.2 =
        (warmupCamera 3 (applySettings env.settings cam).2 env.frames).2.2 ++
        (captureFrame (applySettings env.settings cam).2
          (warmupCamera 3 (applySettings env.settings cam).2 env.frames).2.1 now).2.2.2 ++
        (if (captureFrame (applySettings env.settings cam).2
            (warmupCamera 3 (applySettings env.settings cam).2 env.frames).2.1 now).1
         then [Ev.frameReturn] else []) := by
      cases hmal : env.mallocOk <;>
        cases hcapb : (captureFrame (applySettings env.settings cam).2
            (warmupCamera 3 (applySettings env.settings cam).2 env.frames).2.1 now).1 <;>
          simp [handleSnapshot, hpost, hjson, happly, huf, hmal, hcapb]
    constructor
    · intro e he
      rw [htr] at he
      rcases List.mem_append.mp he with hwc | hr
      · rcases List.mem_append.mp hwc with hw | hc
        · exact hwarmAll e hw
        · rw [hcap _ now e hc]; rfl
      · split_ifs at hr
        · simp at hr; subst hr; rfl
        · simp at hr
    · cases hmal : env.mallocOk <;>
        cases hcapb : (captureFrame (applySettings env.settings cam).2
            (warmupCamera 3 (applySettings env.settings cam).2 env.frames).2.1 now).1 <;>
          simp [handleSnapshot, hpost, hjson, happly, huf, hmal, hcapb]

/-- Witness for C5: flash on at a concrete run: final duty is 0. -/
theorem handleSnapshot_flash_sequence_witness :
    (handleSnapshot
      { type := RequestType.post, path := "/snapshot", headers := [],
        body := [], has_content_length := false, content_length := 0 }
      ⟨true, ⟨8, 0, 0, 0, 300, 0, 0, 0, false, false⟩, true,
        [true, true, true, true], true⟩
      ⟨true, 8, 0, 0, 0, ⟨8, 0, 0, 0, 0, true, true, 0, true, 0, false, false, true, 300, false⟩⟩
      ⟨true, 5, 100, 255, 0, true, 0, 0⟩ 0).2.2.1.current_duty = 0 :=
  ((handleSnapshot_flash_sequence _ _ _ _ _ rfl rfl (by decide) rfl).1 rfl).1

/-! ### C6: config round-trip, store lemmas -/

/-- Two stores agree on the cell range `[lo, hi)`. -/
def Agree (lo hi : Nat) (st1 st2 : Store) : Prop :=
  ∀ i, lo ≤ i → i < hi → st1 i = st2 i

lemma agree_refl (lo hi : Nat) (st : Store) : Agree lo hi st st :=
  fun _ _ _ => rfl

lemma agree_trans {lo hi : Nat} {st1 st2 st3 : Store}
    (h1 : Agree lo hi st1 st2) (h2 : Agree lo hi st2 st3) :
    Agree lo hi st1 st3 :=
  fun i ha hb => (h1 i ha hb).trans (h2 i ha hb)

lemma eepromWrite_apply_out {off v i : Nat} (st : Store) (h : i ≠ off) :
    eepromWrite off v st i = st i := by
  simp [eepromWrite, h]

lemma agree_eepromWrite {lo hi : Nat} (off v : Nat) (st : Store)
    (h : off < lo ∨ hi ≤ off) :
    Agree lo hi (eepromWrite off v st) st := by
  intro i h1 h2
  exact eepromWrite_apply_out st (by omega)

lemma agree_writeUint8 {lo hi : Nat} (off v : Nat) (st : Store)
    (h : off < lo ∨ hi ≤ off) :
    Agree lo hi (writeUint8 off v st) st :=
  agree_eepromWrite off v st h

lemma agree_writeUint16 {lo hi : Nat} (off v : Nat) (st : Store)
    (h : off + 2 ≤ lo ∨ hi ≤ off) :
    Agree lo hi (writeUint16 off v st) st := by
  intro i h1 h2
  unfold writeUint16
  rw [eepromWrite_apply_out _ (by omega), eepromWrite_apply_out _ (by omega)]

lemma agree_writeIPAddress {lo hi : Nat} (off : Nat) (a : IPAddr) (st : Store)
    (h : off + 4 ≤ lo ∨ hi ≤ off) :
    Agree lo hi (writeIPAddress off a st) st := by
  intro i h1 h2
  unfold writeIPAddress
  rw [eepromWrite_apply_out _ (by omega), eepromWrite_apply_out _ (by omega),
    eepromWrite_apply_out _ (by omega), eepromWrite_apply_out _ (by omega)]

lemma writeBytes_apply_out :
    ∀ (bs : List Nat) (off : Nat) (st : Store) (i : Nat),
      i < off ∨ off + bs.length ≤ i → writeBytes off bs st i = st i := by
  intro bs
  induction bs with
  | nil => intro off st i _; rfl
  | cons b rest ih =>
    intro off st i h
    simp only [List.length_cons] at h
    unfold writeBytes
    rw [ih (off + 1) _ i (by omega), eepromWrite_apply_out _ (by omega)]

lemma agree_writeBytes {lo hi : Nat} (bs : List Nat) (off : Nat) (st : Store)
    (h : off + bs.length ≤ lo ∨ hi ≤ off) :
    Agree lo hi (writeBytes off bs st) st := by
  intro i h1 h2
  exact writeBytes_apply_out bs off st i (by omega)

lemma writeZeros_apply_out :
    ∀ (n off : Nat) (st : Store) (i : Nat),
      i < off ∨ off + n ≤ i → writeZeros off n st i = st i := by
  intro n
  induction n with
  | zero => intro off st i _; rfl
  | succ n ih =>
    intro off st i h
    unfold writeZeros
    rw [ih (off + 1) _ i (by omega), eepromWrite_apply_out _ (by omega)]

lemma agree_writeString {lo hi : Nat} (off : Nat) (s : List Nat) (maxLen : Nat)
    (st : Store) (h : off + maxLen ≤ lo ∨ hi ≤ off) :
    Agree lo hi (writeString off s maxLen st) st := by
  intro i h1 h2
  have hlen : min s.length (maxLen - 1) ≤ maxLen := by omega
  unfold writeString
  rw [writeZeros_apply_out _ _ _ i (by omega),
    writeBytes_apply_out _ _ _ i (by
      rw [List.length_take]
      omega)]

lemma readChars_congr :
    ∀ (n off : Nat) {st1 st2 : Store}, Agree off (off + n) st1 st2 →
      readChars off n st1 = readChars off n st2 := by
  intro n
  induction n with
  | zero => intro off st1 st2 _; rfl
  | succ n ih =>
    intro off st1 st2 h
    unfold readChars
    rw [h off (by omega) (by omega),
      ih (off + 1) (fun i h1 h2 => h i (by omega) (by omega))]

lemma readString_congr {off maxLen : Nat} {st1 st2 : Store}
    (h : Agree off (off + (maxLen - 1)) st1 st2) :
    readString off maxLen st1 = readString off maxLen st2 :=
  readChars_congr (maxLen - 1) off h

lemma readUint16_congr {off : Nat} {st1 st2 : Store}
    (h : Agree off (off + 2) st1 st2) :
    readUint16 off st1 = readUint16 off st2 := by
  unfold readUint16 eepromRead
  rw [h off (by omega) (by omega), h (off + 1) (by omega) (by omega)]

lemma readUint8_congr {off : Nat} {st1 st2 : Store}
    (h : Agree off (off + 1) st1 st2) :
    readUint8 off st1 = readUint8 off st2 := by
  unfold readUint8 eepromRead
  rw [h off (by omega) (by omega)]

lemma readIPAddress_congr {off : Nat} {st1 st2 : Store}
    (h : Agree off (off + 4) st1 st2) :
    readIPAddress off st1 = readIPAddress off st2 := by
  unfold readIPAddress eepromRead
  rw [h off (by omega) (by omega), h (off + 1) (by omega) (by omega),
    h (off + 2) (by omega) (by omega), h (off + 3) (by omega) (by omega)]

lemma readUint8_writeUint8 (off v : Nat) (st : Store) :
    readUint8 off (writeUint8 off v st) = v % 256 := by
  simp [readUint8, writeUint8, eepromWrite, eepromRead]

lemma eepromWrite_apply_self (off v : Nat) (st : Store) :
    eepromWrite off v st off = v % 256 := by
  simp [eepromWrite]

lemma readIPAddress_writeIPAddress (off : Nat) (a : IPAddr) (st : Store)
    (h : a.o0 < 256 ∧ a.o1 < 256 ∧ a.o2 < 256 ∧ a.o3 < 256) :
    readIPAddress off (writeIPAddress off a st) = a := by
  obtain ⟨h0, h1, h2, h3⟩ := h
  have e0 : writeIPAddress off a st off = a.o0 := by
    unfold writeIPAddress
    rw [eepromWrite_apply_out _ (by omega), eepromWrite_apply_out _ (by omega),
      eepromWrite_apply_out _ (by omega), eepromWrite_apply_self]
    omega
  have e1 : writeIPAddress off a st (off + 1) = a.o1 := by
    unfold writeIPAddress
    rw [eepromWrite_apply_out _ (by omega), eepromWrite_apply_out _ (by omega),
      eepromWrite_apply_self]
    omega
  have e2 : writeIPAddress off a st (off + 2) = a.o2 := by
    unfold writeIPAddress
    rw [eepromWrite_apply_out _ (by omega), eepromWrite_apply_self]
    omega
  have e3 : writeIPAddress off a st (off + 3) = a.o3 := by
    unfold writeIPAddress
    rw [eepromWrite_apply_self]
    omega
  simp [readIPAddress, eepromRead, e0, e1, e2, e3]

lemma writeBytes_apply_in :
    ∀ (bs : List Nat) (off : Nat) (st : Store) (j : Nat), j < bs.length →
      writeBytes off bs st (off + j) = bs.getD j 0 % 256 := by
  intro bs
  induction bs with
  | nil => intro off st j hj; simp at hj
  | cons b rest ih =>
    intro off st j hj
    cases j with
    | zero =>
      unfold writeBytes
      simp only [Nat.add_zero]
      rw [writeBytes_apply_out _ _ _ _ (by omega), eepromWrite_apply_self]
      rfl
    | succ j =>
      unfold writeBytes
      have : off + (j + 1) = (off + 1) + j := by omega
      rw [this, ih (off + 1) _ j (by simpa using hj)]
      rfl

lemma writeZeros_apply_in :
    ∀ (n off : Nat) (st : Store) (j : Nat), j < n →
      writeZeros off n st (off + j) = 0 := by
  intro n
  induction n with
  | zero => intro off st j hj; simp at hj
  | succ n ih =>
    intro off st j hj
    cases j with
    | zero =>
      unfold writeZeros
      simp only [Nat.add_zero]
      rw [writeZeros_apply_out _ _ _ _ (by omega), eepromWrite_apply_self]
    | succ j =>
      unfold writeZeros
      have : off + (j + 1) = (off + 1) + j := by omega
      rw [this, ih (off + 1) _ j (by omega)]

lemma readChars_spec :
    ∀ (s : List Nat) (off n : Nat) (st : Store),
      (∀ j, j < s.length → st (off + j) = s.getD j 0) →
      (∀ b ∈ s, b ≠ 0) →
      s.length ≤ n →
      (n = s.length ∨ st (off + s.length) = 0) →
      readChars off n st = s := by
  intro s
  induction s with
  | nil =>
    intro off n st _ _ _ hlast
    rcases hlast with rfl | hz
    · rfl
    · cases n with
      | zero => rfl
      | succ n =>
        unfold readChars
        simp only [List.length_nil, Nat.add_zero] at hz
        simp [hz]
  | cons a as ih =>
    intro off n st hval hnz hlen hlast
    cases n with
    | zero => simp at hlen
    | succ n =>
      unfold readChars
      have ha : st off = a := by
        have := hval 0 (by simp)
        simpa using this
      have hane : a ≠ 0 := hnz a (List.mem_cons_self a as)
      rw [ha, if_neg hane]
      congr 1
      apply ih (off + 1) n st
      · intro j hj
        have := hval (j + 1) (by simpa using Nat.succ_lt_succ hj)
        rw [show off + (j + 1) = off + 1 + j by omega] at this
        simpa using this
      · intro b hb; exact hnz b (List.mem_cons_of_mem a hb)
      · simpa using hlen
      · rcases hlast with heq | hz
        · left; simpa using heq
        · right
          rw [show off + 1 + as.length = off + (a :: as).length by simp; omega]
          exact hz

lemma readString_writeString (off : Nat) (s : List Nat) (maxLen : Nat)
    (st : Store)
    (hlen : s.length ≤ maxLen - 1)
    (hb : ∀ b ∈ s, b ≠ 0 ∧ b < 256) :
    readString off maxLen (writeString off s maxLen st) = s := by
  have hmin : min s.length (maxLen - 1) = s.length := by omega
  have htake : s.take (min s.length (maxLen - 1)) = s := by
    rw [hmin]; exact List.take_length ..
  unfold readString writeString
  dsimp only
  rw [hmin, List.take_length]
  refine readChars_spec s off (maxLen - 1) _ ?_ ?_ hlen ?_
  · intro j hj
    rw [writeZeros_apply_out _ _ _ _ (by omega),
      writeBytes_apply_in s off st j hj]
    have hblt : s.getD j 0 < 256 := by
      have hmem : s.getD j 0 ∈ s := by
        have h1 : s.getD j 0 = s[j] := List.getD_eq_getElem s 0 hj
        rw [h1]
        exact List.getElem_mem hj
      exact (hb _ hmem).2
    exact Nat.mod_eq_of_lt hblt
  · intro b hbm; exact (hb b hbm).1
  · rcases Nat.lt_or_ge s.length (maxLen - 1) with hlt | hge
    · right
      rw [show off + s.length = (off + s.length) + 0 by omega]
      exact writeZeros_apply_in (maxLen - s.length) (off + s.length) _ 0 (by omega)
    · left; omega

lemma readUint16_writeUint16 (off v : Nat) (st : Store) :
    readUint16 off (writeUint16 off v st) =
      (v % 256) ||| (((v >>> 8) % 256) <<< 8) := by
  have e0 : writeUint16 off v st off = v % 256 := by
    unfold writeUint16
    rw [eepromWrite_apply_out _ (by omega), eepromWrite_apply_self]
    omega
  have e1 : writeUint16 off v st (off + 1) = (v >>> 8) % 256 := by
    unfold writeUint16
    rw [eepromWrite_apply_self]
    omega
  simp [readUint16, eepromRead, e0, e1]

/-- C6.  Saving a configuration that passes validation and reopening the
resulting byte region recovers the record exactly: the magic/version
gate passes and every string, address, flag and numeric field reads back
unchanged.  (The byte-level side conditions — C strings of at most 63
non-zero bytes, octets and thresholds below 256 — are invariants of the
C types `char[64]`, `IPAddress` and `uint8_t`.) -/
theorem saveConfig_loadConfig_roundtrip (c : Configuration) (st : Store)
    (hvalid : validateConfiguration c = true)
    (hssid : c.wifi_ssid.length ≤ 63) (hssidb : ∀ b ∈ c.wifi_ssid, b ≠ 0 ∧ b < 256)
    (hpwd : c.wifi_password.length ≤ 63) (hpwdb : ∀ b ∈ c.wifi_password, b ≠ 0 ∧ b < 256)
    (hapi : c.api_key.length ≤ 63) (hapib : ∀ b ∈ c.api_key, b ≠ 0 ∧ b < 256)
    (hname : c.device_name.length ≤ 63) (hnameb : ∀ b ∈ c.device_name, b ≠ 0 ∧ b < 256)
    (hip1 : c.static_ip.o0 < 256 ∧ c.static_ip.o1 < 256 ∧ c.static_ip.o2 < 256 ∧ c.static_ip.o3 < 256)
    (hip2 : c.gateway.o0 < 256 ∧ c.gateway.o1 < 256 ∧ c.gateway.o2 < 256 ∧ c.gateway.o3 < 256)
    (hip3 : c.subnet.o0 < 256 ∧ c.subnet.o1 < 256 ∧ c.subnet.o2 < 256 ∧ c.subnet.o3 < 256)
    (hip4 : c.dns_primary.o0 < 256 ∧ c.dns_primary.o1 < 256 ∧ c.dns_primary.o2 < 256 ∧ c.dns_primary.o3 < 256)
    (hip5 : c.dns_secondary.o0 < 256 ∧ c.dns_secondary.o1 < 256 ∧ c.dns_secondary.o2 < 256 ∧ c.dns_secondary.o3 < 256)
    (hthr : c.flash_threshold < 256) :
    loadConfig (saveConfig c st) = some c := by
  have hv := hvalid
  unfold validateConfiguration at hv
  split_ifs at hv with hv1 hv2 hv3 hv4 hv5
  try simp at hv
  have hjpeg : c.jpeg_quality ≤ 63 := by omega
  have hres : c.default_resolution ≤ 13 := by
    simp only [FRAMESIZE_96X96, FRAMESIZE_UXGA, not_or] at hv4
    omega
  have h_thr : readUint8 OFFSET_FLASH_THRESHOLD (saveConfig c st) =
      c.flash_threshold := by
    unfold saveConfig
    rw [readUint8_writeUint8]
    omega
  have h_res : readUint8 OFFSET_DEFAULT_RESOLUTION (saveConfig c st) =
      c.default_resolution := by
    unfold saveConfig
    rw [readUint8_congr (agree_writeUint8 _ _ _ (by decide)),
      readUint8_writeUint8]
    omega
  have h_jpeg : readUint8 OFFSET_JPEG_QUALITY (saveConfig c st) =
      c.jpeg_quality := by
    unfold saveConfig
    rw [readUint8_congr (agree_writeUint8 _ _ _ (by decide)),
      readUint8_congr (agree_writeUint8 _ _ _ (by decide)),
      readUint8_writeUint8]
    omega
  have h_dns2 : readIPAddress OFFSET_DNS_SECONDARY (saveConfig c st) =
      c.dns_secondary := by
    unfold saveConfig
    rw [readIPAddress_congr (agree_writeUint8 _ _ _ (by decide)),
      readIPAddress_congr (agree_writeUint8 _ _ _ (by decide)),
      readIPAddress_congr (agree_writeUint8 _ _ _ (by decide))]
    exact readIPAddress_writeIPAddress _ _ _ hip5
  have h_dns1 : readIPAddress OFFSET_DNS_PRIMARY (saveConfig c st) =
      c.dns_primary := by
    unfold saveConfig
    rw [readIPAddress_congr (agree_writeUint8 _ _ _ (by decide)),
      readIPAddress_congr (agree_writeUint8 _ _ _ (by decide)),
      readIPAddress_congr (agree_writeUint8 _ _ _ (by decide)),
      readIPAddress_congr (agree_writeIPAddress _ _ _ (by decide))]
    exact readIPAddress_writeIPAddress _ _ _ hip4
  have h_subnet : readIPAddress OFFSET_SUBNET (saveConfig c st) = c.subnet := by
    unfold saveConfig
    rw [readIPAddress_congr (agree_writeUint8 _ _ _ (by decide)),
      readIPAddress_congr (agree_writeUint8 _ _ _ (by decide)),
      readIPAddress_congr (agree_writeUint8 _ _ _ (by decide)),
      readIPAddress_congr (agree_writeIPAddress _ _ _ (by decide)),
      readIPAddress_congr (agree_writeIPAddress _ _ _ (by decide))]
    exact readIPAddress_writeIPAddress _ _ _ hip3
  have h_gw : readIPAddress OFFSET_GATEWAY (saveConfig c st) = c.gateway := by
    unfold saveConfig
    rw [readIPAddress_congr (agree_writeUint8 _ _ _ (by decide)),
      readIPAddress_congr (agree_writeUint8 _ _ _ (by decide)),
      readIPAddress_congr (agree_writeUint8 _ _ _ (by decide)),
      readIPAddress_congr (agree_writeIPAddress _ _ _ (by decide)),
      readIPAddress_congr (agree_writeIPAddress _ _ _ (by decide)),
      readIPAddress_congr (agree_writeIPAddress _ _ _ (by decide))]
    exact readIPAddress_writeIPAddress _ _ _ hip2
  have h_sip : readIPAddress OFFSET_STATIC_IP (saveConfig c st) =
      c.static_ip := by
    unfold saveConfig
    rw [readIPAddress_congr (agree_writeUint8 _ _ _ (by decide)),
      readIPAddress_congr (agree_writeUint8 _ _ _ (by decide)),
      readIPAddress_congr (agree_writeUint8 _ _ _ (by decide)),
      readIPAddress_congr (agree_writeIPAddress _ _ _ (by decide)),
      readIPAddress_congr (agree_writeIPAddress _ _ _ (by decide)),
      readIPAddress_congr (agree_writeIPAddress _ _ _ (by decide)),
      readIPAddress_congr (agree_writeIPAddress _ _ _ (by decide))]
    exact readIPAddress_writeIPAddress _ _ _ hip1
  have h_flag : readUint8 OFFSET_USE_STATIC_IP (saveConfig c st) =
      if c.use_static_ip then 1 else 0 := by
    unfold saveConfig
    rw [readUint8_congr (agree_writeUint8 _ _ _ (by decide)),
      readUint8_congr (agree_writeUint8 _ _ _ (by decide)),
      readUint8_congr (agree_writeUint8 _ _ _ (by decide)),
      readUint8_congr (agree_writeIPAddress _ _ _ (by decide)),
      readUint8_congr (agree_writeIPAddress _ _ _ (by decide)),
      readUint8_congr (agree_writeIPAddress _ _ _ (by decide)),
      readUint8_congr (agree_writeIPAddress _ _ _ (by decide)),
      readUint8_congr (agree_writeIPAddress _ _ _ (by decide)),
      readUint8_writeUint8]
    cases c.use_static_ip <;> rfl
  have h_name : readString OFFSET_DEVICE_NAME DEVICE_NAME_MAX_LEN
      (saveConfig c st) = c.device_name := by
    unfold saveConfig
    rw [readString_congr (agree_writeUint8 _ _ _ (by decide)),
      readString_congr (agree_writeUint8 _ _ _ (by decide)),
      readString_congr (agree_writeUint8 _ _ _ (by decide)),
      readString_congr (agree_writeIPAddress _ _ _ (by decide)),
      readString_congr (agree_writeIPAddress _ _ _ (by decide)),
      readString_congr (agree_writeIPAddress _ _ _ (by decide)),
      readString_congr (agree_writeIPAddress _ _ _ (by decide)),
      readString_congr (agree_writeIPAddress _ _ _ (by decide)),
      readString_congr (agree_writeUint8 _ _ _ (by decide))]
    exact readString_writeString _ _ _ _ hname hnameb
  have h_api : readString OFFSET_API_KEY API_KEY_MAX_LEN (saveConfig c st) =
      c.api_key := by
    unfold saveConfig
    rw [readString_congr (agree_writeUint8 _ _ _ (by decide)),
      readString_congr (agree_writeUint8 _ _ _ (by decide)),
      readString_congr (agree_writeUint8 _ _ _ (by decide)),
      readString_congr (agree_writeIPAddress _ _ _ (by decide)),
      readString_congr (agree_writeIPAddress _ _ _ (by decide)),
      readString_congr (agree_writeIPAddress _ _ _ (by decide)),
      readString_congr (agree_writeIPAddress _ _ _ (by decide)),
      readString_congr (agree_writeIPAddress _ _ _ (by decide)),
      readString_congr (agree_writeUint8 _ _ _ (by decide)),
      readString_congr (agree_writeString _ _ _ _ (by decide))]
    exact readString_writeString _ _ _ _ hapi hapib
  have h_pwd : readString OFFSET_WIFI_PASSWORD PASSWORD_MAX_LEN
      (saveConfig c st) = c.wifi_password := by
    unfold saveConfig
    rw [readString_congr (agree_writeUint8 _ _ _ (by decide)),
      readString_congr (agree_writeUint8 _ _ _ (by decide)),
      readString_congr (agree_writeUint8 _ _ _ (by decide)),
      readString_congr (agree_writeIPAddress _ _ _ (by decide)),
      readString_congr (agree_writeIPAddress _ _ _ (by decide)),
      readString_congr (agree_writeIPAddress _ _ _ (by decide)),
      readString_congr (agree_writeIPAddress _ _ _ (by decide)),
      readString_congr (agree_writeIPAddress _ _ _ (by decide)),
      readString_congr (agree_writeUint8 _ _ _ (by decide)),
      readString_congr (agree_writeString _ _ _ _ (by decide)),
      readString_congr (agree_writeString _ _ _ _ (by decide))]
    exact readString_writeString _ _ _ _ hpwd hpwdb
  have h_ssid : readString OFFSET_WIFI_SSID SSID_MAX_LEN (saveConfig c st) =
      c.wifi_ssid := by
    unfold saveConfig
    rw [readString_congr (agree_writeUint8 _ _ _ (by decide)),
      readString_congr (agree_writeUint8 _ _ _ (by decide)),
      readString_congr (agree_writeUint8 _ _ _ (by decide)),
      readString_congr (agree_writeIPAddress _ _ _ (by decide)),
      readString_congr (agree_writeIPAddress _ _ _ (by decide)),
      readString_congr (agree_writeIPAddress _ _ _ (by decide)),
      readString_congr (agree_writeIPAddress _ _ _ (by decide)),
      readString_congr (agree_writeIPAddress _ _ _ (by decide)),
      readString_congr (agree_writeUint8 _ _ _ (by decide)),
      readString_congr (agree_writeString _ _ _ _ (by decide)),
      readString_congr (agree_writeString _ _ _ _ (by decide)),
      readString_congr (agree_writeString _ _ _ _ (by decide))]
    exact readString_writeString _ _ _ _ hssid hssidb
  have h_ver : readUint16 OFFSET_VERSION (saveConfig c st) = CONFIG_VERSION := by
    unfold saveConfig
    rw [readUint16_congr (agree_writeUint8 _ _ _ (by decide)),
      readUint16_congr (agree_writeUint8 _ _ _ (by decide)),
      readUint16_congr (agree_writeUint8 _ _ _ (by decide)),
      readUint16_congr (agree_writeIPAddress _ _ _ (by decide)),
      readUint16_congr (agree_writeIPAddress _ _ _ (by decide)),
      readUint16_congr (agree_writeIPAddress _ _ _ (by decide)),
      readUint16_congr (agree_writeIPAddress _ _ _ (by decide)),
      readUint16_congr (agree_writeIPAddress _ _ _ (by decide)),
      readUint16_congr (agree_writeUint8 _ _ _ (by decide)),
      readUint16_congr (agree_writeString _ _ _ _ (by decide)),
      readUint16_congr (agree_writeString _ _ _ _ (by decide)),
      readUint16_congr (agree_writeString _ _ _ _ (by decide)),
      readUint16_congr (agree_writeString _ _ _ _ (by decide)),
      readUint16_writeUint16]
    decide
  have h_magic : readUint16 OFFSET_MAGIC (saveConfig c st) = CONFIG_MAGIC := by
    unfold saveConfig
    rw [readUint16_congr (agree_writeUint8 _ _ _ (by decide)),
      readUint16_congr (agree_writeUint8 _ _ _ (by decide)),
      readUint16_congr (agree_writeUint8 _ _ _ (by decide)),
      readUint16_congr (agree_writeIPAddress _ _ _ (by decide)),
      readUint16_congr (agree_writeIPAddress _ _ _ (by decide)),
      readUint16_congr (agree_writeIPAddress _ _ _ (by decide)),
      readUint16_congr (agree_writeIPAddress _ _ _ (by decide)),
      readUint16_congr (agree_writeIPAddress _ _ _ (by decide)),
      readUint16_congr (agree_writeUint8 _ _ _ (by decide)),
      readUint16_congr (agree_writeString _ _ _ _ (by decide)),
      readUint16_congr (agree_writeString _ _ _ _ (by decide)),
      readUint16_congr (agree_writeString _ _ _ _ (by decide)),
      readUint16_congr (agree_writeString _ _ _ _ (by decide)),
      readUint16_congr (agree_writeUint16 _ _ _ (by decide)),
      readUint16_writeUint16]
    decide
  have hc2 : readConfiguration (saveConfig c st) = c := by
    unfold readConfiguration
    rw [h_ssid, h_pwd, h_api, h_name, h_flag, h_sip, h_gw, h_subnet,
      h_dns1, h_dns2, h_jpeg, h_res, h_thr]
    cases c with
    | mk ssid pwd us sip gw sn d1 d2 key name jq dr ft =>
      cases us <;> simp
  unfold loadConfig
  rw [h_magic, h_ver, hc2]
  simp [hvalid]

/-- Witness for C6: a concrete valid configuration round-trips through
a zeroed byte region. -/
theorem saveConfig_loadConfig_roundtrip_witness :
    loadConfig (saveConfig
      ⟨[110, 101, 116], [112, 119], false,
       ⟨0, 0, 0, 0⟩, ⟨0, 0, 0, 0⟩, ⟨0, 0, 0, 0⟩, ⟨8, 8, 8, 8⟩, ⟨8, 8, 4, 4⟩,
       [107, 49], [99, 97, 109], 10, 13, 100⟩
      (fun _ => 0)) =
    some ⟨[110, 101, 116], [112, 119], false,
       ⟨0, 0, 0, 0⟩, ⟨0, 0, 0, 0⟩, ⟨0, 0, 0, 0⟩, ⟨8, 8, 8, 8⟩, ⟨8, 8, 4, 4⟩,
       [107, 49], [99, 97, 109], 10, 13, 100⟩ := by
  apply saveConfig_loadConfig_roundtrip <;> decide

end Esp32Cam
